import Mathlib

/-!
# Verification of `src/data_processing/data_recording.py`

Shallow embedding of the one-shot SDR capture script.  The script is a
straight-line program:

```
num_samples:int = 20_000_000
center_freq = 2460e6
sample_rate:float = 4e6
gain = 50
usrp = uhd.usrp.MultiUSRP()
samples = usrp.recv_num_samps(num_samps=num_samples, freq=center_freq,
                              rate=sample_rate, channels=(0,), gain=50)
np.save("DATA_4mhz.npy", samples)
print(samples[0:10])
```

The external collaborators (the UHD hardware library and numpy's array
serialization) are modelled by an environment `Env` describing the outcome of
each external call, and the run of the script is a pure function from `Env`
to a `RunResult`: the ordered trace of externally visible events, the file
written (if any), the data printed (if any), and whether an uncaught error
terminated the run.  Complex IQ samples are modelled as pairs of rationals
(the float components of the Python complex values).
-/

namespace DataRecording

/-- A complex IQ sample: the in-phase and quadrature components. -/
abbrev Cpx := ℚ × ℚ

/-- The dtype tag of a persisted numpy array; the script only ever deals in
complex-valued buffers, so we distinguish `complex` from everything else. -/
inductive Dtype where
  | complex
  | other
deriving DecidableEq, Repr

/-- A `.npy` file as produced by `np.save` on a flat complex array: the dtype
descriptor recorded in the header plus the flat data.  This models the
external numpy serialization contract (a generic numeric-array format with
no custom framing added by the script). -/
structure NpyFile where
  dtype : Dtype
  data : List Cpx
deriving DecidableEq, Repr

/-- Model of `np.save` applied to a complex sample buffer: the file records
the complex dtype and the buffer contents. -/
def np_save (samples : List Cpx) : NpyFile :=
  { dtype := Dtype.complex, data := samples }

/-- Model of `np.load`: reading the persisted file back yields the stored
flat array. -/
def np_load (f : NpyFile) : List Cpx :=
  f.data

/-- Python slicing `xs[a:b]` for `0 ≤ a ≤ b`: clamped to the list length,
never raising. -/
def pySlice (xs : List Cpx) (a b : Nat) : List Cpx :=
  (xs.drop a).take (b - a)

/-- Externally visible events of one run of the script, in program order. -/
inductive Event where
  /-- The four constant assignments at the top of the script. -/
  | declareParams (numSamples : Nat) (centerFreq sampleRate gainVal : ℚ)
  /-- The `uhd.usrp.MultiUSRP()` device-handle construction call. -/
  | acquireDevice
  /-- A `usrp.recv_num_samps` call with the arguments actually passed. -/
  | recv (numSamps : Nat) (freq rate : ℚ) (channels : List Nat) (gainArg : ℚ)
  /-- An explicit device release/close call (the script never performs one;
  the constructor exists so that its absence is a statement about traces). -/
  | release
  /-- An `np.save(filename, data)` call. -/
  | save (filename : String) (contents : NpyFile)
  /-- A `print` of a list of samples. -/
  | printOut (shown : List Cpx)
  /-- An uncaught exception propagating out of the script. -/
  | error
deriving DecidableEq, Repr

/-- Behavior of the world outside the script: the process inputs the script
could in principle read (command line, environment variables, configuration
text) and the outcome of each external library call. -/
structure Env where
  /-- Command-line arguments of the process. -/
  argv : List String
  /-- Environment variables of the process. -/
  environ : List (String × String)
  /-- Contents of any configuration files that might be present. -/
  config : List String
  /-- Whether `uhd.usrp.MultiUSRP()` succeeds (`false` = it raises). -/
  deviceOk : Bool
  /-- Result of `usrp.recv_num_samps`: `some buf` if the call (including the
  tuning it performs) returns the buffer `buf`, `none` if it raises. -/
  recvResult : Option (List Cpx)
deriving Repr

/-- The declared constant `num_samples:int = 20_000_000`. -/
def num_samples : Nat := 20000000

/-- The declared constant `center_freq = 2460e6` (exactly 2460000000.0). -/
def center_freq : ℚ := 2460000000

/-- The declared constant `sample_rate:float = 4e6` (exactly 4000000.0). -/
def sample_rate : ℚ := 4000000

/-- The declared constant `gain = 50`. -/
def gain : ℚ := 50

/-- The constants declared at the top of the script, gathered so the script
body can be stated for arbitrary values of them (the script itself only ever
runs at `defaultParams`). -/
structure Params where
  num_samples : Nat
  center_freq : ℚ
  sample_rate : ℚ
  gain : ℚ
deriving DecidableEq, Repr

/-- The parameter values the script actually declares. -/
def defaultParams : Params :=
  { num_samples := num_samples, center_freq := center_freq,
    sample_rate := sample_rate, gain := gain }

/-- Observable outcome of one run of the script. -/
structure RunResult where
  /-- The ordered trace of externally visible events. -/
  trace : List Event
  /-- The file written by the run, if any: filename and contents. -/
  file : Option (String × NpyFile)
  /-- The data printed by the run, if any. -/
  printed : Option (List Cpx)
  /-- Whether the run was terminated by an uncaught error. -/
  errored : Bool
deriving Repr

/-- The script body, with the four declared constants abstracted as `p`.
Mirrors the source line by line: declare the parameters, construct the
device handle, call `recv_num_samps(num_samps=p.num_samples,
freq=p.center_freq, rate=p.sample_rate, channels=(0,), gain=50)` (the gain
argument is the literal `50` in the source), save the returned buffer to
the literal filename `"DATA_4mhz.npy"`, and print `samples[0:10]`.  Any
failing external call makes the remaining steps unreachable. -/
def runScriptP (p : Params) (env : Env) : RunResult :=
  let decl := Event.declareParams p.num_samples p.center_freq p.sample_rate p.gain
  if env.deviceOk then
    match env.recvResult with
    | none =>
        { trace := [decl, Event.acquireDevice,
                    Event.recv p.num_samples p.center_freq p.sample_rate [0] 50,
                    Event.error],
          file := none, printed := none, errored := true }
    | some samples =>
        { trace := [decl, Event.acquireDevice,
                    Event.recv p.num_samples p.center_freq p.sample_rate [0] 50,
                    Event.save "DATA_4mhz.npy" (np_save samples),
                    Event.printOut (pySlice samples 0 10)],
          file := some ("DATA_4mhz.npy", np_save samples),
          printed := some (pySlice samples 0 10),
          errored := false }
  else
    { trace := [decl, Event.acquireDevice, Event.error],
      file := none, printed := none, errored := true }

/-- The script as written: the body at the declared constants. -/
def runScript (env : Env) : RunResult :=
  runScriptP defaultParams env

/-- Recognizer for device-handle construction events. -/
def isAcquire : Event → Bool
  | Event.acquireDevice => true
  | _ => false

/-- Recognizer for device release/close events. -/
def isRelease : Event → Bool
  | Event.release => true
  | _ => false

end DataRecording

namespace DataRecording

/-- Helper: any `recv` event in a trace of the script (at its declared
constants) carries exactly the declared parameter values. -/
theorem recv_event_args (env : Env) (n : Nat) (f r g : ℚ) (cs : List Nat)
    (h : Event.recv n f r cs g ∈ (runScript env).trace) :
    n = num_samples ∧ f = center_freq ∧ r = sample_rate ∧ cs = [0] ∧ g = gain := by
  rcases env with ⟨av, ev, cf, dok, rres⟩
  cases dok <;> rcases rres with _ | buf <;>
    simp_all [runScript, runScriptP, defaultParams, gain]

/-- C1: the single acquisition call receives exactly the declared constants:
sample count 20000000, center frequency 2460e6, sample rate 4e6, channel
list (0,), and gain 50; no argument passed to `recv_num_samps` differs from
the corresponding declared constant. -/
theorem recv_call_args_match_declared_constants (env : Env)
    (n : Nat) (f r g : ℚ) (cs : List Nat)
    (h : Event.recv n f r cs g ∈ (runScript env).trace) :
    n = num_samples ∧ f = center_freq ∧ r = sample_rate ∧ cs = [0] ∧ g = gain :=
  recv_event_args env n f r g cs h

/-- Witness for C1 at a concrete successful run. -/
theorem recv_call_args_match_declared_constants_witness :
    (Event.recv 20000000 2460000000 4000000 [0] 50 ∈
      (runScript ⟨[], [], [], true, some [((1:ℚ), (0:ℚ))]⟩).trace) ∧
    (20000000 = num_samples ∧ (2460000000 : ℚ) = center_freq ∧
      (4000000 : ℚ) = sample_rate ∧ ([0] : List Nat) = [0] ∧ (50 : ℚ) = gain) :=
  ⟨by decide,
   recv_call_args_match_declared_constants
     ⟨[], [], [], true, some [((1:ℚ), (0:ℚ))]⟩ 20000000 2460000000 4000000 50 [0]
     (by decide)⟩

end DataRecording

namespace DataRecording

/-- C2: whenever the run both writes a file and prints a preview, the printed
preview equals the first ten elements of the persisted buffer,
element-for-element. -/
theorem printed_preview_equals_first_ten_of_saved (env : Env)
    (fn : String) (f : NpyFile) (out : List Cpx)
    (hf : (runScript env).file = some (fn, f))
    (hp : (runScript env).printed = some out) :
    out = (np_load f).take 10 := by
  rcases env with ⟨av, ev, cf, dok, rres⟩
  cases dok <;> rcases rres with _ | buf <;>
    simp_all [runScript, runScriptP, np_save, np_load, pySlice]
  rcases hf with ⟨rfl, rfl⟩
  exact hp.symm

/-- Witness for C2 at a concrete two-sample buffer. -/
theorem printed_preview_equals_first_ten_of_saved_witness :
    ((runScript ⟨[], [], [], true,
        some [((1:ℚ), (2:ℚ)), ((3:ℚ), (4:ℚ))]⟩).file =
      some ("DATA_4mhz.npy",
        ⟨Dtype.complex, [((1:ℚ), (2:ℚ)), ((3:ℚ), (4:ℚ))]⟩)) ∧
    ((runScript ⟨[], [], [], true,
        some [((1:ℚ), (2:ℚ)), ((3:ℚ), (4:ℚ))]⟩).printed =
      some [((1:ℚ), (2:ℚ)), ((3:ℚ), (4:ℚ))]) ∧
    [((1:ℚ), (2:ℚ)), ((3:ℚ), (4:ℚ))] =
      (np_load ⟨Dtype.complex, [((1:ℚ), (2:ℚ)), ((3:ℚ), (4:ℚ))]⟩).take 10 :=
  ⟨rfl, rfl,
   printed_preview_equals_first_ten_of_saved
     ⟨[], [], [], true, some [((1:ℚ), (2:ℚ)), ((3:ℚ), (4:ℚ))]⟩
     "DATA_4mhz.npy" ⟨Dtype.complex, [((1:ℚ), (2:ℚ)), ((3:ℚ), (4:ℚ))]⟩
     [((1:ℚ), (2:ℚ)), ((3:ℚ), (4:ℚ))] rfl rfl⟩

/-- C3: if the receive call returns a buffer of the requested length, then
the persisted file, reloaded, yields an array whose sample count equals the
requested 20000000 and whose dtype is complex; the save-then-load round trip
preserves the buffer. -/
theorem reloaded_file_has_requested_count_and_complex_dtype (env : Env)
    (buf : List Cpx)
    (hd : env.deviceOk = true) (hr : env.recvResult = some buf)
    (hlen : buf.length = num_samples) :
    ∃ f : NpyFile, (runScript env).file = some ("DATA_4mhz.npy", f) ∧
      (np_load f).length = num_samples ∧ f.dtype = Dtype.complex ∧
      np_load f = buf := by
  rcases env with ⟨av, ev, cf, dok, rres⟩
  refine ⟨np_save buf, ?_, ?_, ?_, ?_⟩ <;>
    simp_all [runScript, runScriptP, np_save, np_load]

/-- Witness for C3 at a concrete buffer of the full requested length. -/
theorem reloaded_file_has_requested_count_and_complex_dtype_witness :
    ((⟨[], [], [], true,
        some (List.replicate num_samples ((0:ℚ), (0:ℚ)))⟩ : Env).deviceOk = true) ∧
    ((⟨[], [], [], true,
        some (List.replicate num_samples ((0:ℚ), (0:ℚ)))⟩ : Env).recvResult =
      some (List.replicate num_samples ((0:ℚ), (0:ℚ)))) ∧
    ((List.replicate num_samples ((0:ℚ), (0:ℚ))).length = num_samples) ∧
    (∃ f : NpyFile,
      (runScript ⟨[], [], [], true,
        some (List.replicate num_samples ((0:ℚ), (0:ℚ)))⟩).file =
          some ("DATA_4mhz.npy", f) ∧
      (np_load f).length = num_samples ∧ f.dtype = Dtype.complex ∧
      np_load f = List.replicate num_samples ((0:ℚ), (0:ℚ))) :=
  ⟨rfl, rfl, by simp,
   reloaded_file_has_requested_count_and_complex_dtype
     ⟨[], [], [], true, some (List.replicate num_samples ((0:ℚ), (0:ℚ)))⟩
     (List.replicate num_samples ((0:ℚ), (0:ℚ))) rfl rfl (by simp)⟩

/-- C4: whatever external call fails — device acquisition, or the receive
call (which performs the tuning) — the script catches nothing: the error
propagates (the run terminates errored), no output file is written, and no
preview is printed; the steps after the failing call never execute. -/
theorem uncaught_failure_skips_save_and_print (env : Env)
    (h : env.deviceOk = false ∨ env.recvResult = none) :
    (runScript env).file = none ∧ (runScript env).printed = none ∧
    (runScript env).errored = true ∧ Event.error ∈ (runScript env).trace := by
  rcases env with ⟨av, ev, cf, dok, rres⟩
  rcases h with h | h <;> cases dok <;> rcases rres with _ | buf <;>
    simp_all [runScript, runScriptP]

/-- Witness for C4 at a concrete run whose device construction raises even
though the receive call would have returned a buffer. -/
theorem uncaught_failure_skips_save_and_print_witness :
    ((⟨[], [], [], false, some [((1:ℚ), (0:ℚ))]⟩ : Env).deviceOk = false ∨
     (⟨[], [], [], false, some [((1:ℚ), (0:ℚ))]⟩ : Env).recvResult = none) ∧
    ((runScript ⟨[], [], [], false, some [((1:ℚ), (0:ℚ))]⟩).file = none ∧
     (runScript ⟨[], [], [], false, some [((1:ℚ), (0:ℚ))]⟩).printed = none ∧
     (runScript ⟨[], [], [], false, some [((1:ℚ), (0:ℚ))]⟩).errored = true ∧
     Event.error ∈
       (runScript ⟨[], [], [], false, some [((1:ℚ), (0:ℚ))]⟩).trace) :=
  ⟨Or.inl rfl,
   uncaught_failure_skips_save_and_print
     ⟨[], [], [], false, some [((1:ℚ), (0:ℚ))]⟩ (Or.inl rfl)⟩

/-- C5: in every successful run the trace is exactly: parameter declaration,
one device-handle acquisition, one blocking receive call, one file write,
then the console print — in that order and multiplicity; in particular the
file write follows the receive call and precedes the print. -/
theorem successful_run_event_order (env : Env) (buf : List Cpx)
    (hd : env.deviceOk = true) (hr : env.recvResult = some buf) :
    (runScript env).trace =
      [Event.declareParams num_samples center_freq sample_rate gain,
       Event.acquireDevice,
       Event.recv num_samples center_freq sample_rate [0] 50,
       Event.save "DATA_4mhz.npy" (np_save buf),
       Event.printOut (pySlice buf 0 10)] := by
  rcases env with ⟨av, ev, cf, dok, rres⟩
  simp_all [runScript, runScriptP, defaultParams]

/-- Witness for C5 at a concrete one-sample run. -/
theorem successful_run_event_order_witness :
    ((⟨[], [], [], true, some [((5:ℚ), (6:ℚ))]⟩ : Env).deviceOk = true) ∧
    ((⟨[], [], [], true, some [((5:ℚ), (6:ℚ))]⟩ : Env).recvResult =
      some [((5:ℚ), (6:ℚ))]) ∧
    (runScript ⟨[], [], [], true, some [((5:ℚ), (6:ℚ))]⟩).trace =
      [Event.declareParams num_samples center_freq sample_rate gain,
       Event.acquireDevice,
       Event.recv num_samples center_freq sample_rate [0] 50,
       Event.save "DATA_4mhz.npy" (np_save [((5:ℚ), (6:ℚ))]),
       Event.printOut (pySlice [((5:ℚ), (6:ℚ))] 0 10)] :=
  ⟨rfl, rfl,
   successful_run_event_order ⟨[], [], [], true, some [((5:ℚ), (6:ℚ))]⟩
     [((5:ℚ), (6:ℚ))] rfl rfl⟩

end DataRecording

namespace DataRecording

/-- C6: in every run the trace contains exactly one device-handle
construction event (so no second `MultiUSRP` construction occurs) and no
release/close event at all. -/
theorem device_acquired_once_never_released (env : Env) :
    (runScript env).trace.countP isAcquire = 1 ∧
    (runScript env).trace.countP isRelease = 0 := by
  rcases env with ⟨av, ev, cf, dok, rres⟩
  cases dok <;> rcases rres with _ | buf <;>
    simp [runScript, runScriptP, List.countP_cons, isAcquire, isRelease]

/-- C7: the run is independent of command-line arguments, environment
variables, and configuration files — two runs whose external library calls
behave the same are identical even if those inputs differ arbitrarily — and
every acquisition call in any run passes exactly the literal declared
constants. -/
theorem run_independent_of_external_input (e1 e2 : Env)
    (hd : e1.deviceOk = e2.deviceOk) (hr : e1.recvResult = e2.recvResult) :
    runScript e1 = runScript e2 ∧
    ∀ n f r g cs, Event.recv n f r cs g ∈ (runScript e1).trace →
      n = num_samples ∧ f = center_freq ∧ r = sample_rate ∧ cs = [0] ∧
      g = gain := by
  constructor
  · rcases e1 with ⟨av1, ev1, cf1, dok1, rres1⟩
    rcases e2 with ⟨av2, ev2, cf2, dok2, rres2⟩
    simp only at hd hr
    subst hd; subst hr
    cases dok1 <;> rcases rres1 with _ | buf <;> rfl
  · intro n f r g cs h
    exact recv_event_args e1 n f r g cs h

/-- Witness for C7: two concrete runs with different argv, environment and
configuration but the same library behavior. -/
theorem run_independent_of_external_input_witness :
    ((⟨["--samples", "5"], [("GAIN", "10")], ["freq=1e6"], true,
        some [((1:ℚ), (1:ℚ))]⟩ : Env).deviceOk =
      (⟨[], [], [], true, some [((1:ℚ), (1:ℚ))]⟩ : Env).deviceOk) ∧
    ((⟨["--samples", "5"], [("GAIN", "10")], ["freq=1e6"], true,
        some [((1:ℚ), (1:ℚ))]⟩ : Env).recvResult =
      (⟨[], [], [], true, some [((1:ℚ), (1:ℚ))]⟩ : Env).recvResult) ∧
    (runScript ⟨["--samples", "5"], [("GAIN", "10")], ["freq=1e6"], true,
        some [((1:ℚ), (1:ℚ))]⟩ =
      runScript ⟨[], [], [], true, some [((1:ℚ), (1:ℚ))]⟩ ∧
    ∀ n f r g cs, Event.recv n f r cs g ∈
        (runScript ⟨["--samples", "5"], [("GAIN", "10")], ["freq=1e6"], true,
          some [((1:ℚ), (1:ℚ))]⟩).trace →
      n = num_samples ∧ f = center_freq ∧ r = sample_rate ∧ cs = [0] ∧
      g = gain) :=
  ⟨rfl, rfl,
   run_independent_of_external_input
     ⟨["--samples", "5"], [("GAIN", "10")], ["freq=1e6"], true,
       some [((1:ℚ), (1:ℚ))]⟩
     ⟨[], [], [], true, some [((1:ℚ), (1:ℚ))]⟩ rfl rfl⟩

/-- C8: every file-write event, for any values of the declared constants and
any library behavior, uses the fixed literal filename "DATA_4mhz.npy": the
output path is independent of the sample count, frequency, rate, gain and
channel parameters. -/
theorem save_filename_is_fixed_literal (p : Params) (env : Env)
    (fn : String) (d : NpyFile)
    (h : Event.save fn d ∈ (runScriptP p env).trace) :
    fn = "DATA_4mhz.npy" := by
  rcases env with ⟨av, ev, cf, dok, rres⟩
  cases dok <;> rcases rres with _ | buf <;> simp_all [runScriptP]

/-- Witness for C8 at parameter values different from the declared ones. -/
theorem save_filename_is_fixed_literal_witness :
    (Event.save "DATA_4mhz.npy" (np_save []) ∈
      (runScriptP ⟨7, 1, 2, 3⟩ ⟨[], [], [], true, some []⟩).trace) ∧
    "DATA_4mhz.npy" = "DATA_4mhz.npy" :=
  ⟨by decide,
   save_filename_is_fixed_literal ⟨7, 1, 2, 3⟩ ⟨[], [], [], true, some []⟩
     "DATA_4mhz.npy" (np_save []) (by decide)⟩

/-- C9: the preview slice is total: whatever buffer the acquisition call
returns — even one with fewer than ten elements — the run reaches the print
without error and prints `samples[0:10]`, which yields the `min 10 length`
leading elements. -/
theorem preview_slice_total (env : Env) (buf : List Cpx)
    (hd : env.deviceOk = true) (hr : env.recvResult = some buf) :
    (runScript env).printed = some (pySlice buf 0 10) ∧
    (pySlice buf 0 10).length = min 10 buf.length ∧
    pySlice buf 0 10 = buf.take 10 ∧
    (runScript env).errored = false := by
  rcases env with ⟨av, ev, cf, dok, rres⟩
  simp_all [runScript, runScriptP, pySlice]

/-- Witness for C9 at a concrete one-sample buffer (shorter than ten). -/
theorem preview_slice_total_witness :
    ((⟨[], [], [], true, some [((9:ℚ), (8:ℚ))]⟩ : Env).deviceOk = true) ∧
    ((⟨[], [], [], true, some [((9:ℚ), (8:ℚ))]⟩ : Env).recvResult =
      some [((9:ℚ), (8:ℚ))]) ∧
    ((runScript ⟨[], [], [], true, some [((9:ℚ), (8:ℚ))]⟩).printed =
      some (pySlice [((9:ℚ), (8:ℚ))] 0 10) ∧
    (pySlice [((9:ℚ), (8:ℚ))] 0 10).length = min 10 [((9:ℚ), (8:ℚ))].length ∧
    pySlice [((9:ℚ), (8:ℚ))] 0 10 = [((9:ℚ), (8:ℚ))].take 10 ∧
    (runScript ⟨[], [], [], true, some [((9:ℚ), (8:ℚ))]⟩).errored = false) :=
  ⟨rfl, rfl,
   preview_slice_total ⟨[], [], [], true, some [((9:ℚ), (8:ℚ))]⟩
     [((9:ℚ), (8:ℚ))] rfl rfl⟩

/-- C10: the persisted contents and the printed preview both derive from the
one buffer returned by the receive call, unchanged: the file stores exactly
that buffer, the preview is exactly its first ten elements, and the round
trip through the file returns it intact. -/
theorem buffer_unchanged_between_save_and_print (env : Env) (buf : List Cpx)
    (hd : env.deviceOk = true) (hr : env.recvResult = some buf) :
    (runScript env).file = some ("DATA_4mhz.npy", np_save buf) ∧
    np_load (np_save buf) = buf ∧
    (runScript env).printed = some (pySlice buf 0 10) ∧
    pySlice buf 0 10 = (np_load (np_save buf)).take 10 := by
  rcases env with ⟨av, ev, cf, dok, rres⟩
  simp_all [runScript, runScriptP, np_save, np_load, pySlice]

/-- Witness for C10 at a concrete two-sample buffer. -/
theorem buffer_unchanged_between_save_and_print_witness :
    ((⟨[], [], [], true, some [((1:ℚ), (0:ℚ)), ((0:ℚ), (1:ℚ))]⟩ : Env).deviceOk
      = true) ∧
    ((⟨[], [], [], true, some [((1:ℚ), (0:ℚ)), ((0:ℚ), (1:ℚ))]⟩ :
        Env).recvResult = some [((1:ℚ), (0:ℚ)), ((0:ℚ), (1:ℚ))]) ∧
    ((runScript ⟨[], [], [], true,
        some [((1:ℚ), (0:ℚ)), ((0:ℚ), (1:ℚ))]⟩).file =
      some ("DATA_4mhz.npy", np_save [((1:ℚ), (0:ℚ)), ((0:ℚ), (1:ℚ))]) ∧
    np_load (np_save [((1:ℚ), (0:ℚ)), ((0:ℚ), (1:ℚ))]) =
      [((1:ℚ), (0:ℚ)), ((0:ℚ), (1:ℚ))] ∧
    (runScript ⟨[], [], [], true,
        some [((1:ℚ), (0:ℚ)), ((0:ℚ), (1:ℚ))]⟩).printed =
      some (pySlice [((1:ℚ), (0:ℚ)), ((0:ℚ), (1:ℚ))] 0 10) ∧
    pySlice [((1:ℚ), (0:ℚ)), ((0:ℚ), (1:ℚ))] 0 10 =
      (np_load (np_save [((1:ℚ), (0:ℚ)), ((0:ℚ), (1:ℚ))])).take 10) :=
  ⟨rfl, rfl,
   buffer_unchanged_between_save_and_print
     ⟨[], [], [], true, some [((1:ℚ), (0:ℚ)), ((0:ℚ), (1:ℚ))]⟩
     [((1:ℚ), (0:ℚ)), ((0:ℚ), (1:ℚ))] rfl rfl⟩

end DataRecording
